import Mathlib

/-!
Verification of the coordination core of the sticker-trendz pipeline.

Shallow embedding of the Python source modules:
  src/publisher/etsy_rate_limiter.py  (rate-limit governor and named locks)
  src/pricing/tiers.py                (tier table, price points, floor prices)
  src/pricing/engine.py               (per-sticker pricing decision)
  src/monitoring/error_logger.py      (error-ledger sanitization)
  src/monitoring/spend_tracker.py     (budget checks and alert coalescing)
  src/monitoring/pipeline_logger.py   (pipeline-run ledger)
  src/trends/dedup.py                 (trend deduplication)
  src/resilience.py                   (retry and circuit breaker)

Conventions: Python floats are modelled as rationals; Python ints as Int/Nat;
timestamps as integer days or rational seconds; fallible store operations as
Except/Option values passed in explicitly; database writes are recorded as
effect values instead of being performed.
-/

namespace StickerTrendz

/-! ### Rate-limit governor (src/publisher/etsy_rate_limiter.py) -/

def P0_ORDER_READS : Int := 0
def P1_NEW_LISTINGS : Int := 1
def P2_PRICE_UPDATES : Int := 2
def P3_ANALYTICS : Int := 3

def THRESHOLD_NORMAL : Int := 7000
def THRESHOLD_WARNING : Int := 8500
def THRESHOLD_CRITICAL : Int := 9500

/-- Embedding of `EtsyRateLimiter._check_threshold` (pure threshold logic). -/
def check_threshold (usage : Int) (priority : Int) : Bool :=
  if usage > THRESHOLD_CRITICAL then false
  else if usage > THRESHOLD_WARNING then decide (priority ≤ P1_NEW_LISTINGS)
  else if usage > THRESHOLD_NORMAL then decide (priority ≤ P2_PRICE_UPDATES)
  else true

/-- Result of the Redis `get` on the daily counter key: either the store is
unreachable (`Except.error`), or it returns an optional stored value. -/
def RedisGet := Except String (Option Int)

/-- Embedding of `EtsyRateLimiter.get_daily_usage`: parses the stored value,
returns 0 when the key is absent, and returns 0 when the store raises. -/
def get_daily_usage (stored : Except String (Option Int)) : Int :=
  match stored with
  | .error _ => 0
  | .ok none => 0
  | .ok (some v) => v

/-- Embedding of `EtsyRateLimiter.can_proceed`. -/
def can_proceed (stored : Except String (Option Int)) (priority : Int) : Bool :=
  check_threshold (get_daily_usage stored) priority

/-- The coordination store restricted to the lock keys: a map from key to the
stored string value, `none` when the key is absent. -/
def RedisStore := String → Option String

/-- Embedding of `EtsyRateLimiter.acquire_lock` on a reachable store:
`SET key "1" NX EX ttl`. Returns whether the lock was acquired, with the
updated store. TTL bookkeeping is not modelled (all claims stay within one
TTL window). -/
def acquire_lock (store : RedisStore) (workflow_name : String) : Bool × RedisStore :=
  let lock_key := "lock:" ++ workflow_name
  match store lock_key with
  | none => (true, fun k => if k = lock_key then some "1" else store k)
  | some _ => (false, store)

/-- Embedding of `EtsyRateLimiter.release_lock` on a reachable store: the
source unconditionally issues `DELETE lock:{workflow}` and returns `True`;
there is no owner token and no check of the stored value. -/
def release_lock (store : RedisStore) (workflow_name : String) : Bool × RedisStore :=
  let lock_key := "lock:" ++ workflow_name
  (true, fun k => if k = lock_key then none else store k)

/-! ### Pricing tiers (src/pricing/tiers.py) -/

structure TierDef where
  tier : String
  min_trend_age_days : Nat
  max_trend_age_days : Option Nat
  price_single_small : ℚ
  price_single_large : ℚ
deriving DecidableEq, Repr

/-- Embedding of `DEFAULT_TIERS`. -/
def DEFAULT_TIERS : List TierDef :=
  [ { tier := "just_dropped", min_trend_age_days := 0, max_trend_age_days := some 3,
      price_single_small := 5.49, price_single_large := 6.49 },
    { tier := "trending", min_trend_age_days := 3, max_trend_age_days := some 14,
      price_single_small := 4.49, price_single_large := 5.49 },
    { tier := "cooling", min_trend_age_days := 14, max_trend_age_days := some 30,
      price_single_small := 3.49, price_single_large := 4.49 },
    { tier := "evergreen", min_trend_age_days := 30, max_trend_age_days := none,
      price_single_small := 3.49, price_single_large := 4.49 } ]

/-- Embedding of `PricingTierManager.get_tier_for_age`: scan the tier table in
order; an open-ended tier matches when `min ≤ age`, a bounded tier when
`min ≤ age < max`; fall back to `"evergreen"` when nothing matches. -/
def get_tier_for_age (tiers : List TierDef) (age_days : Nat) : String :=
  match tiers with
  | [] => "evergreen"
  | t :: rest =>
    match t.max_trend_age_days with
    | none =>
      if t.min_trend_age_days ≤ age_days then t.tier
      else get_tier_for_age rest age_days
    | some max_age =>
      if t.min_trend_age_days ≤ age_days ∧ age_days < max_age then t.tier
      else get_tier_for_age rest age_days

/-! ### Retry and circuit breaker (src/resilience.py) -/

/-- Embedding of the `CircuitBreakerState` dataclass. -/
structure CBState where
  service : String
  threshold : Nat
  consecutive_failures : Nat
  is_open : Bool
deriving DecidableEq, Repr

/-- Embedding of `CircuitBreakerState` construction as done by
`CircuitBreakerRegistry.get` for a fresh service. -/
def init_cb (service : String) (threshold : Nat) : CBState :=
  { service := service, threshold := threshold, consecutive_failures := 0, is_open := false }

/-- Embedding of `CircuitBreakerState.record_failure`; the Bool reports
whether the circuit just tripped open. -/
def record_failure (cb : CBState) : CBState × Bool :=
  let cf := cb.consecutive_failures + 1
  if cb.threshold ≤ cf ∧ cb.is_open = false then
    ({ cb with consecutive_failures := cf, is_open := true }, true)
  else
    ({ cb with consecutive_failures := cf }, false)

/-- Embedding of `CircuitBreakerState.record_success`. -/
def record_success (cb : CBState) : CBState :=
  { cb with consecutive_failures := 0, is_open := false }

/-- Embedding of `CircuitBreakerState.can_proceed`. -/
def cb_can_proceed (cb : CBState) : Bool := !cb.is_open

/-- Circuit-breaker states reachable in one process: a fresh registry entry
followed by any sequence of recorded successes and failures. -/
inductive CBReachable : CBState → Prop where
  | init (service : String) (threshold : Nat) : CBReachable (init_cb service threshold)
  | fail {cb : CBState} : CBReachable cb → CBReachable (record_failure cb).1
  | succ {cb : CBState} : CBReachable cb → CBReachable (record_success cb)

/-- The only failure value `retry` raises to its caller:
`RetryExhaustedError(last_exception, attempts)`. The open-circuit path
raises it with `attempts = 0` wrapping a runtime error naming the service;
the exhaustion path raises it with `attempts = max_retries`. -/
inductive RetryError where
  | retryExhausted (attempts : Nat) (last_error : String)
deriving DecidableEq, Repr

/-- Error-taxonomy kind of a raised failure, keyed by its exception class
(`RetryExhaustedError` is the `retry_exhausted` kind of the taxonomy). -/
def error_kind : RetryError → String
  | .retryExhausted _ _ => "retry_exhausted"

/-- A concrete open breaker: the `etsy` service (threshold 3) after three
consecutive recorded failures. -/
def open_cb_example : CBState :=
  (record_failure (record_failure (record_failure (init_cb "etsy" 3)).1).1).1

/-- The retry loop body of the `retry` wrapper (the `for attempt in
range(1, max_retries + 1)` loop): `fn` maps the attempt number to the
outcome of the wrapped operation, every raised failure is retryable, and the
third component counts invocations of the underlying operation. Backoff
sleeps are timing-only and not modelled. -/
def retry_go {α : Type} (fn : Nat → Except String α) (max_retries : Nat) :
    CBState → Nat → Nat → Nat → String → Except RetryError α × CBState × Nat
  | cb, _, 0, calls, last_msg =>
    (.error (.retryExhausted max_retries last_msg), cb, calls)
  | cb, attempt, remaining + 1, calls, _ =>
    match fn attempt with
    | .ok v => (.ok v, record_success cb, calls + 1)
    | .error msg =>
      let cb' := (record_failure cb).1
      if cb_can_proceed cb' = false then
        (.error (.retryExhausted max_retries msg), cb', calls + 1)
      else
        retry_go fn max_retries cb' (attempt + 1) remaining (calls + 1) msg

/-- Embedding of one call through the `retry` wrapper with an attached
service circuit breaker: when the circuit is open the wrapper fails at once
with `RetryExhaustedError(RuntimeError(...), attempts=0)` without touching
the operation; otherwise the attempt loop runs. Returns the outcome, the
final breaker state, and the number of underlying invocations. -/
def retry_call {α : Type} (max_retries : Nat) (cb : CBState)
    (fn : Nat → Except String α) : Except RetryError α × CBState × Nat :=
  if cb_can_proceed cb = false then
    (.error (.retryExhausted 0 ("Circuit breaker open for service " ++ cb.service)), cb, 0)
  else
    retry_go fn max_retries cb 1 max_retries 0 ""

/-! ### Spend governor (src/monitoring/spend_tracker.py) -/

/-- The instance state of `SpendTracker` relevant to alert coalescing: the
single `_alert_sent_for_month` field shared by the warning and hard-stop
branches. -/
structure SpendState where
  alert_sent_for_month : Option String
deriving DecidableEq, Repr

/-- Which branch of `check_budget` sent the alert email (both branches call
the same `send_budget_warning(monthly, cap)`). -/
inductive AlertBranch where
  | warning
  | hardStop
deriving DecidableEq, Repr

/-- The dictionary returned by `check_budget` (the `message` string is
display-only and omitted). -/
structure BudgetResult where
  can_proceed : Bool
  monthly_spend : ℚ
  warning : Bool
  hard_stop : Bool
deriving DecidableEq, Repr

/-- Embedding of `SpendTracker.check_budget`: the monthly spend and current
month key are inputs (the source reads them from the store and the wall
clock); alert sends succeed. Returns the new instance state, the alert sent
by this call if any, and the result dictionary. -/
def check_budget (st : SpendState) (monthly : ℚ) (current_month : String)
    (monthly_warning monthly_cap : ℚ) : SpendState × Option AlertBranch × BudgetResult :=
  let hard_stop := decide (monthly_cap ≤ monthly)
  let warning := decide (monthly_warning ≤ monthly)
  let res : BudgetResult :=
    { can_proceed := !hard_stop, monthly_spend := monthly,
      warning := warning, hard_stop := hard_stop }
  if hard_stop then
    if st.alert_sent_for_month ≠ some current_month then
      ({ alert_sent_for_month := some current_month }, some .hardStop, res)
    else (st, none, res)
  else if warning then
    if st.alert_sent_for_month ≠ some current_month then
      ({ alert_sent_for_month := some current_month }, some .warning, res)
    else (st, none, res)
  else (st, none, res)

/-- A sequence of `check_budget` calls against one tracker instance; each
call supplies its observed monthly spend and month key. Returns the final
state and the alert emitted by each call. -/
def run_budget_calls (st : SpendState) (calls : List (ℚ × String))
    (monthly_warning monthly_cap : ℚ) : SpendState × List (Option AlertBranch) :=
  match calls with
  | [] => (st, [])
  | (m, mon) :: rest =>
    let step := check_budget st m mon monthly_warning monthly_cap
    let tail := run_budget_calls step.1 rest monthly_warning monthly_cap
    (tail.1, step.2.1 :: tail.2)

/-- Modelled from the spec (amended form), for comparison with the source
behaviour: within one month, the first call whose spend reaches either
threshold sends exactly one alert (the hard-stop branch when the cap is
reached, else the warning branch) and every later call is silent. -/
def budget_alerts_spec (monthly_warning monthly_cap : ℚ) :
    List ℚ → Bool → List (Option AlertBranch)
  | [], _ => []
  | m :: rest, sent =>
    if sent = false ∧ (monthly_cap ≤ m ∨ monthly_warning ≤ m) then
      some (if monthly_cap ≤ m then .hardStop else .warning) ::
        budget_alerts_spec monthly_warning monthly_cap rest true
    else
      none :: budget_alerts_spec monthly_warning monthly_cap rest sent

/-! ### Pipeline-run ledger (src/monitoring/pipeline_logger.py) -/

/-- The fields of a `pipeline_runs` row that the lifecycle touches. Wall
timestamps and monotonic clock readings are rational seconds. Count fields,
api-calls and cost fields are claim-irrelevant and omitted. -/
structure PipelineRow where
  workflow : String
  status : String
  started_at : ℚ
  ended_at : Option ℚ
  duration_seconds : Option Int
deriving DecidableEq, Repr

/-- Python `int()` truncation toward zero on a rational. -/
def py_int_trunc (q : ℚ) : Int :=
  if 0 ≤ q then ⌊q⌋ else -⌊-q⌋

/-- Embedding of `PipelineRunLogger.start_run`: inserts a row with status
`started` (no `ended_at`, no `duration_seconds` key) and records the
monotonic start reading in the per-instance `_start_times` map (modelled as
an association list with the newest binding in front). -/
def start_run (start_times : List (String × ℚ)) (run_id workflow : String)
    (wall mono : ℚ) : List (String × ℚ) × PipelineRow :=
  ((run_id, mono) :: start_times,
   { workflow := workflow, status := "started", started_at := wall,
     ended_at := none, duration_seconds := none })

/-- Embedding of `PipelineRunLogger._calculate_duration`: pop the stored
monotonic start; when present return `int(now - start)`, else `None`. -/
def calculate_duration (start_times : List (String × ℚ)) (run_id : String)
    (mono_now : ℚ) : Option Int × List (String × ℚ) :=
  match start_times.find? (fun p => decide (p.1 = run_id)) with
  | some p => (some (py_int_trunc (mono_now - p.2)),
               start_times.eraseP (fun q => decide (q.1 = run_id)))
  | none => (none, start_times)

/-- Shared body of `complete_run`, `fail_run` and `partial_run`: set the
terminal status, `ended_at = now`, and `duration_seconds` from the popped
monotonic start (the update dictionary always carries all three keys). -/
def terminal_update (new_status : String) (row : PipelineRow)
    (start_times : List (String × ℚ)) (run_id : String) (wall mono : ℚ) :
    PipelineRow × List (String × ℚ) :=
  let d := calculate_duration start_times run_id mono
  ({ row with
      status := new_status
      ended_at := some wall
      duration_seconds := d.1 }, d.2)

/-- Embedding of `PipelineRunLogger.complete_run`. -/
def complete_run : PipelineRow → List (String × ℚ) → String → ℚ → ℚ →
    PipelineRow × List (String × ℚ) :=
  terminal_update "completed"

/-- Embedding of `PipelineRunLogger.fail_run`. -/
def fail_run : PipelineRow → List (String × ℚ) → String → ℚ → ℚ →
    PipelineRow × List (String × ℚ) :=
  terminal_update "failed"

/-- Embedding of `PipelineRunLogger.partial_run`. -/
def partial_run : PipelineRow → List (String × ℚ) → String → ℚ → ℚ →
    PipelineRow × List (String × ℚ) :=
  terminal_update "partial"

/-! ### Python string primitives

Character-list implementations of the Python string operations the source
uses, written so that they evaluate inside the kernel. ASCII inputs are the
only ones the source feeds them. -/

/-- Python `str.lower()`. -/
def py_lower (s : String) : String :=
  String.mk (s.data.map Char.toLower)

/-- Python `str.endswith(suffix)`. -/
def py_endswith (s suffix : String) : Bool :=
  suffix.data.isSuffixOf s.data

/-- Python slicing `s[:-k]` for `0 < k ≤ len(s)`. -/
def py_drop_right (s : String) (k : Nat) : String :=
  String.mk (s.data.take (s.data.length - k))

/-! ### Error-ledger sanitization (src/monitoring/error_logger.py) -/

/-- Python values as they occur in a `log_error` context dictionary:
strings, numbers, nested dictionaries, and lists. -/
inductive PyVal where
  | str (s : String)
  | int (n : Int)
  | dict (entries : List (String × PyVal))
  | list (items : List PyVal)

/-- Embedding of `_PII_KEYS`. -/
def PII_KEYS : List String :=
  ["customer_name", "customer_email", "customer_address", "email",
   "address", "phone", "name", "password", "api_key", "secret",
   "access_token", "refresh_token", "credit_card", "ssn"]

mutual

/-- Value handling inside `sanitize_context`: a string value goes through
`sanitize_string` (abstracted as the parameter `f`, standing for the
regex-substitution pipeline over `_SENSITIVE_PATTERNS`), a dict value is
recursed into, and every other value — including a list and everything
inside it — passes through unchanged. -/
def sanitize_value (f : String → String) : PyVal → PyVal
  | .str s => .str (f s)
  | .dict es => .dict (sanitize_context f es)
  | v => v

/-- Embedding of `sanitize_context`: drop entries whose lowercased key is in
the PII key set, sanitize string values, recurse into dict values, and keep
everything else as-is. -/
def sanitize_context (f : String → String) : List (String × PyVal) → List (String × PyVal)
  | [] => []
  | (k, v) :: rest =>
    if PII_KEYS.contains (py_lower k) then sanitize_context f rest
    else (k, sanitize_value f v) :: sanitize_context f rest

end

mutual

/-- Every string reachable anywhere inside a value, through dictionaries and
lists alike (the reachability the claim quantifies over). -/
def value_all_strings : PyVal → List String
  | .str s => [s]
  | .int _ => []
  | .dict es => ctx_all_strings es
  | .list items => list_all_strings items

/-- Strings reachable inside the items of a list value. -/
def list_all_strings : List PyVal → List String
  | [] => []
  | v :: rest => value_all_strings v ++ list_all_strings rest

/-- Strings reachable inside the entries of a dictionary. -/
def ctx_all_strings : List (String × PyVal) → List String
  | [] => []
  | (_, v) :: rest => value_all_strings v ++ ctx_all_strings rest

end

mutual

/-- Whether a value contains no PII key on any path that runs through
dictionaries only (the paths `sanitize_context` actually walks). -/
def pii_free_value : PyVal → Bool
  | .dict es => pii_free_ctx es
  | _ => true

/-- Whether a dictionary and its dict-nested descendants carry no key from
the PII key set. -/
def pii_free_ctx : List (String × PyVal) → Bool
  | [] => true
  | (k, v) :: rest =>
    !PII_KEYS.contains (py_lower k) && pii_free_value v && pii_free_ctx rest

end

mutual

/-- The string values of a dictionary reachable through dictionaries only
(the strings `sanitize_context` rewrites). -/
def value_dict_strings : PyVal → List String
  | .str s => [s]
  | .dict es => ctx_dict_strings es
  | _ => []

/-- Dictionary-reachable string values of the entries of a dictionary. -/
def ctx_dict_strings : List (String × PyVal) → List String
  | [] => []
  | (_, v) :: rest => value_dict_strings v ++ ctx_dict_strings rest

end

/-- Characters admitted by the local part of the email regex
`[a-zA-Z0-9._%+\-]+`. -/
def email_local_char (c : Char) : Bool :=
  c.isAlphanum || c = '.' || c = '_' || c = '%' || c = '+' || c = '-'

/-- Characters admitted by the domain part of the email regex
`[a-zA-Z0-9.\-]+`. -/
def email_domain_char (c : Char) : Bool :=
  c.isAlphanum || c = '.' || c = '-'

/-- Whether the email member of `_SENSITIVE_PATTERNS`
(`[a-zA-Z0-9._%+\-]+@[a-zA-Z0-9.\-]+\.[a-zA-Z]\x7b2,\x7d`) has a match
somewhere in the string: some substring decomposes into a non-empty local
part, an at sign, a non-empty domain, a dot, and a top-level label of at
least two letters. -/
def email_pattern_matches (s : String) : Prop :=
  ∃ pre loc dom tld post : String,
    s = pre ++ loc ++ "@" ++ dom ++ "." ++ tld ++ post ∧
    loc ≠ "" ∧ loc.data.all email_local_char = true ∧
    dom ≠ "" ∧ dom.data.all email_domain_char = true ∧
    2 ≤ tld.data.length ∧ tld.data.all (fun c => c.isAlpha) = true

/-- A context whose only sensitive string sits inside a list value. -/
def leak_ctx : List (String × PyVal) :=
  [("emails", .list [.str "john@example.com"])]

/-- The most aggressive string sanitizer possible: it maps every string to
the redaction token. Any behaviour of the real `sanitize_string` is bounded
by it, so whatever survives this sanitizer survives the real one too. -/
def redact_all : String → String := fun _ => "[REDACTED]"

/-! ### Trend deduplication (src/trends/dedup.py) -/

/-- Embedding of `SIMILARITY_THRESHOLD`. -/
def SIMILARITY_THRESHOLD : ℚ := 6/10

/-- Embedding of `_SUFFIX_RULES` (suffix, replacement), in source order. -/
def SUFFIX_RULES : List (String × String) :=
  [("ying", "y"), ("zing", "z"), ("ting", "t"), ("ning", "n"), ("ring", "r"),
   ("ling", "l"), ("ding", "d"), ("bing", "b"), ("ging", "g"), ("ping", "p"),
   ("ming", "m"), ("king", "k"), ("sing", "s"), ("ing", ""), ("ies", "y"),
   ("ness", ""), ("ment", ""), ("tion", ""), ("sion", ""), ("able", ""),
   ("ible", ""), ("ful", ""), ("less", ""), ("ous", ""), ("ive", ""),
   ("ed", ""), ("er", ""), ("est", ""), ("ly", ""), ("s", "")]

/-- Embedding of `simple_stem`: words of length ≤ 3 are unchanged; otherwise
the first rule whose suffix matches and whose residue would keep length ≥ 3
is applied. -/
def simple_stem (word : String) : String :=
  if word.length ≤ 3 then word
  else
    match SUFFIX_RULES.find? (fun r =>
        py_endswith word r.1 && decide (3 ≤ word.length - r.1.length + r.2.length)) with
    | some r => py_drop_right word r.1.length ++ r.2
    | none => word

/-- Characters kept by the normalization regex `[^\w\s-]` removal: word
characters, whitespace, and hyphens survive. -/
def is_kept_char (c : Char) : Bool :=
  c.isAlphanum || c = '_' || c.isWhitespace || c = '-'

/-- Lexicographic comparison on code points (Python string `<`). -/
def py_str_lt (a b : String) : Bool :=
  let rec go : List Char → List Char → Bool
    | [], [] => false
    | [], _ :: _ => true
    | _ :: _, [] => false
    | x :: xs, y :: ys =>
      if x.toNat < y.toNat then true
      else if y.toNat < x.toNat then false
      else go xs ys
  go a.data b.data

/-- Insertion into an ascending list (helper for the Python `list.sort`). -/
def py_insert (x : String) : List String → List String
  | [] => [x]
  | y :: ys => if py_str_lt y x then y :: py_insert x ys else x :: y :: ys

/-- Python `list.sort()` on strings: ascending lexicographic order. -/
def py_sort (l : List String) : List String :=
  l.foldr py_insert []

/-- Python `str.split()` with no separator: split on whitespace runs,
dropping empty pieces; `cur` holds the current word reversed. -/
def py_split_ws_go (cur : List Char) : List Char → List String
  | [] => if cur.isEmpty then [] else [String.mk cur.reverse]
  | c :: rest =>
    if c.isWhitespace then
      if cur.isEmpty then py_split_ws_go [] rest
      else String.mk cur.reverse :: py_split_ws_go [] rest
    else py_split_ws_go (c :: cur) rest

/-- Python `str.split()` with no separator. -/
def py_split_ws (s : String) : List String :=
  py_split_ws_go [] s.data

/-- Embedding of `normalize_topic`: lowercase, keep word characters,
whitespace and hyphens, split into words, keep words longer than one
character, stem, sort, and rejoin with single spaces. -/
def normalize_topic (topic : String) : String :=
  if topic = "" then ""
  else
    let text := String.mk ((py_lower topic).data.filter is_kept_char)
    let words := ((py_split_ws text).filter (fun w => 1 < w.length)).map simple_stem
    String.intercalate " " (py_sort words)

/-- Embedding of `jaccard_similarity` on keyword sets. -/
def jaccard_similarity (set_a set_b : Finset String) : ℚ :=
  if set_a = ∅ ∧ set_b = ∅ then 0
  else if set_a ∪ set_b = ∅ then 0
  else ((set_a ∩ set_b).card : ℚ) / ((set_a ∪ set_b).card : ℚ)

/-- Embedding of `_keyword_set`: the stemmed, lowercased set of the
non-empty keywords. -/
def keyword_set (keywords : List String) : Finset String :=
  ((keywords.filter (fun k => k ≠ "")).map (fun k => simple_stem (py_lower k))).toFinset

/-- The stemmed, lowercased keyword set of a finished canonical entry (its
`keywords` field is already a set). -/
def keyword_set_fs (keywords : Finset String) : Finset String :=
  (keywords.filter (fun k => k ≠ "")).image (fun k => simple_stem (py_lower k))

/-- The `source` field of a candidate dict: a string or a list of strings. -/
inductive SourceField where
  | str (s : String)
  | list (l : List String)
deriving DecidableEq, Repr

/-- Embedding of `_ensure_list`. -/
def ensure_list : SourceField → List String
  | .list l => l
  | .str s => if s = "" then [] else [s]

/-- A trend candidate as consumed by `deduplicate_trends` (the fields
`_copy_trend` copies; `source_data` is an opaque tag). -/
structure TrendCand where
  topic : String
  keywords : List String
  source : SourceField
  score_hint : ℚ
  source_data : String
deriving DecidableEq, Repr

/-- The in-progress canonical trend of one outer iteration: `seed_keywords`
is the untouched `merged["keywords"]` list of the seed candidate (the inner
loop always compares against it), while `keyword_pool` accumulates the union
of raw keywords. -/
structure MergedState where
  topic : String
  seed_keywords : List String
  sources : List String
  keyword_pool : Finset String
  score_hint : ℚ
  source_data : String
deriving DecidableEq

/-- A finished canonical trend: `sources` and `keywords` come from Python
sets (`list(set(...))`, unspecified order), hence finite sets here. -/
structure CanonTrend where
  topic : String
  keywords : Finset String
  sources : Finset String
  topic_normalized : String
  score_hint : ℚ
  source_data : String
deriving DecidableEq

/-- Start of an outer iteration: `_copy_trend(trend_a)` plus the
`sources`/`keyword_pool` initialisation. -/
def init_merged (a : TrendCand) : MergedState :=
  { topic := a.topic, seed_keywords := a.keywords, sources := ensure_list a.source,
    keyword_pool := a.keywords.toFinset, score_hint := a.score_hint,
    source_data := a.source_data }

/-- The inner `for j in range(i+1, ...)` loop of `deduplicate_trends`: walk
the later candidates in order; merge any candidate whose stemmed keyword set
has Jaccard similarity strictly above the threshold with the seed keywords
(`merged["keywords"]`, never mutated by the loop); return the merged state
and the unmerged remainder in order. -/
def absorb (threshold : ℚ) (m : MergedState) : List TrendCand → MergedState × List TrendCand
  | [] => (m, [])
  | b :: rest =>
    let set_a := keyword_set m.seed_keywords
    let set_b := keyword_set b.keywords
    if jaccard_similarity set_a set_b > threshold then
      let sources' := m.sources ++ ensure_list b.source
      let m' : MergedState :=
        if b.score_hint > m.score_hint then
          { m with
              topic := b.topic
              sources := sources'
              keyword_pool := m.keyword_pool ∪ b.keywords.toFinset
              score_hint := b.score_hint
              source_data := b.source_data }
        else
          { m with
              sources := sources'
              keyword_pool := m.keyword_pool ∪ b.keywords.toFinset }
      absorb threshold m' rest
    else
      let r := absorb threshold m rest
      (r.1, b :: r.2)

/-- Finalization of one canonical trend: `sources = list(set(sources))`,
`keywords = list(keyword_pool)`, plus the normalized topic. -/
def finalize (m : MergedState) : CanonTrend :=
  { topic := m.topic, keywords := m.keyword_pool, sources := m.sources.toFinset,
    topic_normalized := normalize_topic m.topic, score_hint := m.score_hint,
    source_data := m.source_data }

/-- Fuel-indexed outer loop of `deduplicate_trends`: each step takes the
next unmerged candidate as a seed, absorbs all later similar candidates, and
recurses on the remainder. `fuel = length of the input` always suffices
because `absorb` never lengthens the remainder. -/
def dedup_go (threshold : ℚ) : Nat → List TrendCand → List CanonTrend
  | 0, _ => []
  | _, [] => []
  | fuel + 1, a :: rest =>
    let r := absorb threshold (init_merged a) rest
    finalize r.1 :: dedup_go threshold fuel r.2

/-- Embedding of `deduplicate_trends`. -/
def deduplicate_trends (threshold : ℚ) (trends : List TrendCand) : List CanonTrend :=
  dedup_go threshold trends.length trends

/-- The seed candidates of the canonical entries, in output order (the
`trend_a` of each outer iteration of `deduplicate_trends`). -/
def seeds_go (threshold : ℚ) : Nat → List TrendCand → List TrendCand
  | 0, _ => []
  | _, [] => []
  | fuel + 1, a :: rest =>
    a :: seeds_go threshold fuel (absorb threshold (init_merged a) rest).2

/-- The seed candidate of each canonical output entry. -/
def dedup_seeds (threshold : ℚ) (trends : List TrendCand) : List TrendCand :=
  seeds_go threshold trends.length trends

/-- Candidates of the C7 counterexample: the seed absorbs the third
candidate but not the second, leaving two canonical entries whose merged
keyword sets are closer than the threshold. -/
def C7_input : List TrendCand :=
  [ { topic := "A", keywords := ["a", "b"], source := .str "reddit",
      score_hint := 0, source_data := "" },
    { topic := "B", keywords := ["a", "b", "c", "d"], source := .str "google",
      score_hint := 0, source_data := "" },
    { topic := "C", keywords := ["a", "b", "c"], source := .str "google",
      score_hint := 0, source_data := "" } ]

/-- First canonical entry of the dedup run on `C7_input` (the seed `A` after
absorbing candidate `C`). -/
def C7_out0 : CanonTrend where
  topic := "A"
  keywords := {"a", "b", "c"}
  sources := {"reddit", "google"}
  topic_normalized := ""
  score_hint := 0
  source_data := ""

/-- Second canonical entry of the dedup run on `C7_input` (candidate `B`
untouched). -/
def C7_out1 : CanonTrend where
  topic := "B"
  keywords := {"a", "b", "c", "d"}
  sources := {"google"}
  topic_normalized := ""
  score_hint := 0
  source_data := ""

/-! ### Floor prices and price points (src/pricing/tiers.py, continued) -/

def DEFAULT_ETSY_FEE_RATE : ℚ := 0.10
def DEFAULT_MIN_MARGIN : ℚ := 0.20

/-- Python `round(q, 2)` (banker's rounding, half to even) on an exact
rational. -/
def py_round2 (q : ℚ) : ℚ :=
  let x := q * 100
  let f := ⌊x⌋
  let r := x - f
  let n := if r < 1/2 then f else if 1/2 < r then f + 1
           else if f % 2 = 0 then f else f + 1
  (n : ℚ) / 100

/-- Embedding of `round_to_price_point`: non-positive inputs map to 0.49,
otherwise the smallest of `base + 0.49`, `base + 0.99`, `base + 1.49` that
is ≥ the price (the last candidate always is, since `price < base + 1`). -/
def round_to_price_point (price : ℚ) : ℚ :=
  if price ≤ 0 then 0.49
  else
    let base := (⌊price⌋ : ℚ)
    if base + 0.49 ≥ price then base + 0.49
    else if base + 0.99 ≥ price then base + 0.99
    else base + 1.49

/-- Embedding of `calculate_floor_price`: invalid fee or margin rates fall
back to the defaults, then `total / (1 - fee) / (1 - margin)` rounded to
cents. -/
def calculate_floor_price (print_cost shipping_cost packaging_cost
    etsy_fee_rate min_margin : ℚ) : ℚ :=
  let total_cost := print_cost + shipping_cost + packaging_cost
  let invalid := 1 ≤ etsy_fee_rate ∨ 1 ≤ min_margin
  let fr := if invalid then DEFAULT_ETSY_FEE_RATE else etsy_fee_rate
  let mm := if invalid then DEFAULT_MIN_MARGIN else min_margin
  py_round2 (total_cost / (1 - fr) / (1 - mm))

/-- The hard-coded fallback price table of `PricingTierManager.get_price`
(an unknown tier maps to the evergreen prices). -/
def fallback_price (tier product_type : String) : ℚ :=
  let small := product_type = "single_small"
  if tier = "just_dropped" then if small then 5.49 else 6.49
  else if tier = "trending" then if small then 4.49 else 5.49
  else if tier = "cooling" then if small then 3.49 else 4.49
  else if small then 3.49 else 4.49

/-- Embedding of `PricingTierManager.get_price`: first matching tier row
wins (rows of the embedded table always carry prices, so the source's
missing-price sub-branch cannot arise); otherwise the fallback table. -/
def get_price (tiers : List TierDef) (tier product_type : String) : ℚ :=
  match tiers.find? (fun t => decide (t.tier = tier)) with
  | some t =>
    if product_type = "single_small" then t.price_single_small
    else t.price_single_large
  | none => fallback_price tier product_type

/-- Outcome of the `shipping_rates` lookup inside `get_floor_price`: a row
with costs, no row, or a raised `DatabaseError`. -/
inductive RateLookup where
  | found (shipping_cost packaging_cost : ℚ)
  | missing
  | dbError
deriving DecidableEq, Repr

/-- Embedding of `PricingTierManager.get_floor_price` at the default print
cost (1.50, bumped to 2.00 for the large size): costs come from the rate
lookup, zeros when the row is absent, and the fixed `self_usps` fallbacks
when the lookup raises; the raw floor is then rounded to a price point. -/
def get_floor_price (rate : RateLookup) (product_type fulfillment_provider : String) : ℚ :=
  let print_cost : ℚ := if product_type = "single_large" then 2.00 else 1.50
  let costs : ℚ × ℚ :=
    match rate with
    | .found s p => (s, p)
    | .missing => (0, 0)
    | .dbError =>
      if fulfillment_provider = "self_usps" then
        (0.78, if product_type = "single_small" then 0.15 else 0.20)
      else (0, 0)
  round_to_price_point
    (calculate_floor_price print_cost costs.1 costs.2 DEFAULT_ETSY_FEE_RATE DEFAULT_MIN_MARGIN)

/-! ### Per-sticker pricing decision (src/pricing/engine.py) -/

def SALES_OVERRIDE_THRESHOLD : Nat := 10

/-- The order fields the pricing decision reads. -/
structure OrderRow where
  sticker_id : String
  pricing_tier_at_sale : String
deriving DecidableEq, Repr

/-- The sticker fields the pricing decision reads (timestamps as integer
days). -/
structure StickerRow where
  id : String
  etsy_listing_id : String
  price : ℚ
  current_pricing_tier : String
  size : String
  fulfillment_provider : String
  moderation_status : String
  sales_count : Nat
  last_sale_at : Option Int
  created_at : Int
  trend_created_at : Option Int
deriving DecidableEq, Repr

/-- The stores and collaborators one `_process_sticker` call reads: current
day, the orders table, the tier table (DB-loaded or `DEFAULT_TIERS`), the
shipping-rate lookup outcome, and whether the Etsy price update succeeds. -/
structure EngineEnv where
  now : Int
  orders : List OrderRow
  tiers : List TierDef
  shipping_rate : RateLookup
  publisher_update_success : Bool
deriving DecidableEq, Repr

/-- Embedding of `PricingEngine._calculate_trend_age`: 0 for a missing
timestamp, else the age clamped at 0. -/
def calculate_trend_age (now : Int) (created : Option Int) : Nat :=
  match created with
  | none => 0
  | some c => (now - c).toNat

/-- Embedding of `PricingEngine._has_recent_sales` (window 14 days): false
when the sticker has no orders at all or no `last_sale_at`, else whether the
last sale is within the window. -/
def has_recent_sales (env : EngineEnv) (s : StickerRow) : Bool :=
  if (env.orders.filter (fun o => decide (o.sticker_id = s.id))).isEmpty then false
  else
    match s.last_sale_at with
    | none => false
    | some t => decide (env.now - 14 ≤ t)

/-- Embedding of `PricingEngine._check_sales_override`: at least 10 orders
of this sticker frozen at the current tier. -/
def check_sales_override (env : EngineEnv) (sticker_id current_tier : String) : Bool :=
  decide (SALES_OVERRIDE_THRESHOLD ≤
    (env.orders.filter (fun o =>
      decide (o.sticker_id = sticker_id) && decide (o.pricing_tier_at_sale = current_tier))).length)

/-- Fields written by the single `update_sticker` call of one decision
(`none` = field not in the update dictionary). -/
structure StickerUpdate where
  price : Option ℚ
  current_pricing_tier : Option String
  floor_price : Option ℚ
deriving DecidableEq, Repr

/-- A `price_history` insert. -/
structure PriceHistoryRow where
  sticker_id : String
  old_price : ℚ
  new_price : ℚ
  pricing_tier : String
  reason : String
deriving DecidableEq, Repr

/-- The observable effects of one `_process_sticker` call: the sticker
update issued (if any), the price-history row inserted (if any), and the
returned boolean. -/
structure ProcessResult where
  sticker_update : Option StickerUpdate
  price_history : Option PriceHistoryRow
  changed : Bool
deriving DecidableEq, Repr

/-- Embedding of `PricingEngine._process_sticker` (called by `run` on
non-archived stickers only; database writes succeed; the publisher is
present and its success is `env.publisher_update_success`). -/
def process_sticker (env : EngineEnv) (s : StickerRow) : ProcessResult :=
  let current_price := s.price
  let current_tier := s.current_pricing_tier
  let product_type := if s.size = "4in" then "single_large" else "single_small"
  let trend_age_days := calculate_trend_age env.now (some (s.trend_created_at.getD s.created_at))
  let tier0 := get_tier_for_age env.tiers trend_age_days
  if 30 ≤ trend_age_days ∧ has_recent_sales env s = false ∧ s.sales_count = 0 then
    { sticker_update := none, price_history := none, changed := false }
  else
    let new_tier :=
      if 30 ≤ trend_age_days ∧ has_recent_sales env s = false then "evergreen" else tier0
    if check_sales_override env s.id current_tier = true then
      if new_tier ≠ current_tier then
        { sticker_update := some
            { price := none, current_pricing_tier := some new_tier, floor_price := none }
          price_history := none
          changed := false }
      else
        { sticker_update := none, price_history := none, changed := false }
    else
      let tier_price := get_price env.tiers new_tier product_type
      let floor_price := get_floor_price env.shipping_rate product_type s.fulfillment_provider
      let clamped := if tier_price < floor_price then floor_price else tier_price
      let new_price := round_to_price_point clamped
      if |new_price - current_price| < 0.01 ∧ new_tier = current_tier then
        { sticker_update := none, price_history := none, changed := false }
      else if s.etsy_listing_id ≠ "" ∧ env.publisher_update_success = false then
        { sticker_update := none, price_history := none, changed := false }
      else
        { sticker_update := some
            { price := some new_price, current_pricing_tier := some new_tier
              floor_price := some floor_price }
          price_history := some
            { sticker_id := s.id, old_price := current_price, new_price := new_price
              pricing_tier := new_tier
              reason := if new_tier ≠ current_tier then
                  "tier_change:" ++ current_tier ++ "->" ++ new_tier
                else "trend_age" }
          changed := true }

/-- The tier `_process_sticker` computes for a sticker (tier-table lookup on
the trend age, forced to evergreen for an aged sticker without recent
sales), extracted for stating the sales-override frame property. -/
def computed_tier (env : EngineEnv) (s : StickerRow) : String :=
  let trend_age_days := calculate_trend_age env.now (some (s.trend_created_at.getD s.created_at))
  if 30 ≤ trend_age_days ∧ has_recent_sales env s = false then "evergreen"
  else get_tier_for_age env.tiers trend_age_days

/-- The environment of the sales-override scenario (today is day 16; ten
orders of sticker `s1` at tier `trending`). -/
def C3_env : EngineEnv where
  now := 16
  orders := List.replicate 10 { sticker_id := "s1", pricing_tier_at_sale := "trending" }
  tiers := DEFAULT_TIERS
  shipping_rate := .dbError
  publisher_update_success := true

/-- The sticker of the sales-override scenario: tier `trending`, price 4.49,
trend created on day 0 (age 16), ten recorded sales. -/
def C3_sticker : StickerRow where
  id := "s1"
  etsy_listing_id := "L1"
  price := 4.49
  current_pricing_tier := "trending"
  size := "3in"
  fulfillment_provider := "self_usps"
  moderation_status := "approved"
  sales_count := 10
  last_sale_at := none
  created_at := 0
  trend_created_at := some 0

end StickerTrendz

namespace StickerTrendz

/-! ### Theorems -/

/-- Within one month the source behaviour matches the amended alert
specification, for either starting value of the coalescing flag. -/
theorem run_budget_calls_eq_spec (w cap : ℚ) (M : String) (spends : List ℚ)
    (sent : Bool) :
    (run_budget_calls (if sent then ⟨some M⟩ else ⟨none⟩)
        (spends.map (fun s => (s, M))) w cap).2 =
      budget_alerts_spec w cap spends sent := by
  induction spends generalizing sent with
  | nil => cases sent <;> rfl
  | cons m rest ih =>
    cases sent with
    | false =>
      by_cases hcap : cap ≤ m
      · simpa [run_budget_calls, check_budget, budget_alerts_spec, hcap]
          using ih true
      · by_cases hw : w ≤ m
        · simpa [run_budget_calls, check_budget, budget_alerts_spec, hcap, hw]
            using ih true
        · simpa [run_budget_calls, check_budget, budget_alerts_spec, hcap, hw]
            using ih false
    | true =>
      by_cases hcap : cap ≤ m
      · simpa [run_budget_calls, check_budget, budget_alerts_spec, hcap]
          using ih true
      · by_cases hw : w ≤ m
        · simpa [run_budget_calls, check_budget, budget_alerts_spec, hcap, hw]
            using ih true
        · simpa [run_budget_calls, check_budget, budget_alerts_spec, hcap, hw]
            using ih true

/-- Once the coalescing flag is set, the amended alert specification emits
nothing for the rest of the month. -/
theorem budget_alerts_spec_sent_none (w cap : ℚ) (spends : List ℚ) :
    ∀ a ∈ budget_alerts_spec w cap spends true, a = none := by
  induction spends with
  | nil => simp [budget_alerts_spec]
  | cons m rest ih => simpa [budget_alerts_spec] using ih

/-- The amended alert specification emits at most one alert within a
month starting from a fresh instance. -/
theorem budget_alerts_spec_count (w cap : ℚ) (spends : List ℚ) :
    (budget_alerts_spec w cap spends false).countP (fun a => a.isSome) ≤ 1 := by
  induction spends with
  | nil => simp [budget_alerts_spec]
  | cons m rest ih =>
    by_cases htr : cap ≤ m ∨ w ≤ m
    · have hnone : (budget_alerts_spec w cap rest true).countP (fun a => a.isSome) = 0 := by
        rw [List.countP_eq_zero]
        intro a ha
        simp [budget_alerts_spec_sent_none w cap rest a ha]
      simp [budget_alerts_spec, htr, List.countP_cons, hnone]
    · simpa [budget_alerts_spec, htr, List.countP_cons] using ih

/-- C6 counterexample: the claim states that a warning email sent earlier in
the month does not suppress the hard-stop email when the hard-stop threshold
is later crossed. In the source both branches share the single
`_alert_sent_for_month` flag, so after a warning email at spend 125 the call
at spend 155 crosses the 150 hard stop (its result reports
`hard_stop = true`) yet sends no email at all. -/
theorem C6_hard_stop_suppressed_counterexample :
    (run_budget_calls ⟨none⟩ [((125 : ℚ), "2026-02"), ((155 : ℚ), "2026-02")]
        120 150).2 = [some .warning, none] ∧
    (check_budget ⟨some "2026-02"⟩ 155 "2026-02" 120 150).2.1 = none ∧
    (check_budget ⟨some "2026-02"⟩ 155 "2026-02" 120 150).2.2.hard_stop = true := by
  refine ⟨?_, ?_, ?_⟩ <;> decide

/-- C6 amended: within one process instance and one calendar month, at most
one budget email in total is sent: the first `check_budget` call whose spend
reaches either threshold sends one email (from the hard-stop branch when the
cap is reached, else from the warning branch) and every later call in the
same month is silent — including a hard-stop crossing after an earlier
warning email, which the shared flag suppresses. -/
theorem C6_single_alert_amended (M : String) (spends : List ℚ) (w cap : ℚ) :
    (run_budget_calls ⟨none⟩ (spends.map (fun s => (s, M))) w cap).2 =
      budget_alerts_spec w cap spends false ∧
    ((run_budget_calls ⟨none⟩ (spends.map (fun s => (s, M))) w cap).2.countP
        (fun a => a.isSome)) ≤ 1 := by
  have h := run_budget_calls_eq_spec w cap M spends false
  simp only [if_neg Bool.false_ne_true] at h
  exact ⟨h, h ▸ budget_alerts_spec_count w cap spends⟩

mutual

/-- Sanitized values carry no PII key on dictionary-only paths. -/
theorem pii_free_sanitize_value (f : String → String) (v : PyVal) :
    pii_free_value (sanitize_value f v) = true := by
  cases v with
  | str s => simp [sanitize_value, pii_free_value]
  | int n => simp [sanitize_value, pii_free_value]
  | dict es => simpa [sanitize_value, pii_free_value] using pii_free_sanitize_ctx f es
  | list items => simp [sanitize_value, pii_free_value]

/-- Sanitized dictionaries carry no PII key at any dict-nesting depth. -/
theorem pii_free_sanitize_ctx (f : String → String) (es : List (String × PyVal)) :
    pii_free_ctx (sanitize_context f es) = true := by
  match es with
  | [] => simp [sanitize_context, pii_free_ctx]
  | (k, v) :: rest =>
    by_cases h : PII_KEYS.contains (py_lower k) = true
    · rw [sanitize_context, if_pos h]
      exact pii_free_sanitize_ctx f rest
    · rw [sanitize_context, if_neg h]
      rw [pii_free_ctx]
      simp only [pii_free_sanitize_value f v, pii_free_sanitize_ctx f rest]
      simpa using h

end

mutual

/-- Every dictionary-reachable string value of a sanitized value is the
image of some input string under the sanitizer. -/
theorem dict_strings_sanitize_value (f : String → String) (v : PyVal) :
    ∀ s ∈ value_dict_strings (sanitize_value f v), ∃ s₀, s = f s₀ := by
  cases v with
  | str s0 =>
    intro s hs
    simp [sanitize_value, value_dict_strings] at hs
    exact ⟨s0, hs⟩
  | int n => intro s hs; simp [sanitize_value, value_dict_strings] at hs
  | dict es =>
    intro s hs
    exact dict_strings_sanitize_ctx f es s
      (by simpa [sanitize_value, value_dict_strings] using hs)
  | list items => intro s hs; simp [sanitize_value, value_dict_strings] at hs

/-- Every dictionary-reachable string value of a sanitized dictionary is the
image of some input string under the sanitizer. -/
theorem dict_strings_sanitize_ctx (f : String → String) (es : List (String × PyVal)) :
    ∀ s ∈ ctx_dict_strings (sanitize_context f es), ∃ s₀, s = f s₀ := by
  match es with
  | [] => intro s hs; simp [sanitize_context, ctx_dict_strings] at hs
  | (k, v) :: rest =>
    intro s hs
    by_cases h : PII_KEYS.contains (py_lower k) = true
    · rw [sanitize_context, if_pos h] at hs
      exact dict_strings_sanitize_ctx f rest s hs
    · rw [sanitize_context, if_neg h] at hs
      rw [ctx_dict_strings] at hs
      rcases List.mem_append.mp hs with hs | hs
      · exact dict_strings_sanitize_value f v s hs
      · exact dict_strings_sanitize_ctx f rest s hs

end

/-- C4 counterexample: the claim states that no sensitive pattern matches any
string reachable anywhere inside the stored context, including strings
inside list values. `sanitize_context` keeps non-string, non-dict values
unchanged, so a string inside a list value is stored verbatim: with a
context `("emails" ↦ ["john@example.com"])`, the stored context still
contains `john@example.com` — even under the total sanitizer that redacts
every string it is handed, hence a fortiori under the regex pipeline of
`sanitize_string` — and the email member of the sensitive-pattern set
matches it. -/
theorem C4_list_value_leak_counterexample :
    "john@example.com" ∈ ctx_all_strings (sanitize_context redact_all leak_ctx) ∧
    email_pattern_matches "john@example.com" := by
  constructor
  · have h1 : sanitize_context redact_all leak_ctx = leak_ctx := by
      unfold leak_ctx
      rw [sanitize_context, if_neg (by decide), sanitize_context]
      simp [sanitize_value]
    rw [h1]
    simp [leak_ctx, ctx_all_strings, value_all_strings, list_all_strings]
  · exact ⟨"", "john", "example", "com", "", by decide, by decide, by decide,
      by decide, by decide, by decide, by decide⟩

/-- C4 amended: for every sanitizer behaviour of `sanitize_string` and every
context, the stored context carries no PII key at any nesting depth
reachable through dictionaries, and every string value reachable through
dictionaries is the image of some input string under `sanitize_string`;
values that are neither strings nor dictionaries — lists included, together
with every string and dictionary inside them — pass through unchanged, so
the claim holds only for dictionary-reachable content, not for strings
inside list values. -/
theorem C4_sanitize_amended (f : String → String) (es : List (String × PyVal)) :
    pii_free_ctx (sanitize_context f es) = true ∧
    ∀ s ∈ ctx_dict_strings (sanitize_context f es), ∃ s₀, s = f s₀ :=
  ⟨pii_free_sanitize_ctx f es, dict_strings_sanitize_ctx f es⟩

/-- Every candidate left unmerged by the inner loop is no closer than the
threshold to the seed keywords (the loop merges exactly the strictly-closer
candidates). -/
theorem absorb_mem_le (th : ℚ) (l : List TrendCand) : ∀ (m : MergedState),
    ∀ b ∈ (absorb th m l).2,
      jaccard_similarity (keyword_set m.seed_keywords) (keyword_set b.keywords) ≤ th := by
  induction l with
  | nil => intro m b hb; simp [absorb] at hb
  | cons c rest ih =>
    intro m b hb
    rw [absorb] at hb
    split at hb
    · rename_i hsim
      have hb' := ih _ b hb
      have : (if c.score_hint > m.score_hint then
          { m with
              topic := c.topic
              sources := m.sources ++ ensure_list c.source
              keyword_pool := m.keyword_pool ∪ c.keywords.toFinset
              score_hint := c.score_hint
              source_data := c.source_data }
        else
          { m with
              sources := m.sources ++ ensure_list c.source
              keyword_pool := m.keyword_pool ∪ c.keywords.toFinset } :
          MergedState).seed_keywords = m.seed_keywords := by
        split <;> rfl
      rwa [this] at hb'
    · rename_i hsim
      simp only [List.mem_cons] at hb
      rcases hb with hb | hb
      · subst hb
        exact not_lt.mp hsim
      · exact ih m b hb

/-- The unmerged remainder is a subset of the walked candidates. -/
theorem absorb_mem_orig (th : ℚ) (l : List TrendCand) : ∀ (m : MergedState),
    ∀ b ∈ (absorb th m l).2, b ∈ l := by
  induction l with
  | nil => intro m b hb; simp [absorb] at hb
  | cons c rest ih =>
    intro m b hb
    rw [absorb] at hb
    split at hb
    · exact List.mem_cons_of_mem c (ih _ b hb)
    · simp only [List.mem_cons] at hb
      rcases hb with hb | hb
      · exact hb ▸ List.mem_cons_self c rest
      · exact List.mem_cons_of_mem c (ih m b hb)

/-- Every seed is one of the input candidates. -/
theorem seeds_go_mem (th : ℚ) : ∀ (fuel : Nat) (l : List TrendCand),
    ∀ x ∈ seeds_go th fuel l, x ∈ l := by
  intro fuel
  induction fuel with
  | zero => intro l x hx; simp [seeds_go] at hx
  | succ n ih =>
    intro l x hx
    match l with
    | [] => simp [seeds_go] at hx
    | a :: rest =>
      rw [seeds_go] at hx
      rcases List.mem_cons.mp hx with hx | hx
      · exact hx ▸ List.mem_cons_self a rest
      · exact List.mem_cons_of_mem a
          (absorb_mem_orig th rest (init_merged a) x (ih _ x hx))

/-- The seeds of the canonical entries are pairwise no closer than the
threshold. -/
theorem seeds_go_pairwise (th : ℚ) : ∀ (fuel : Nat) (l : List TrendCand),
    List.Pairwise (fun x y =>
      jaccard_similarity (keyword_set x.keywords) (keyword_set y.keywords) ≤ th)
      (seeds_go th fuel l) := by
  intro fuel
  induction fuel with
  | zero => intro l; simp [seeds_go]
  | succ n ih =>
    intro l
    match l with
    | [] => simp [seeds_go]
    | a :: rest =>
      rw [seeds_go]
      refine List.Pairwise.cons ?_ (ih _)
      intro y hy
      have hmem := seeds_go_mem th n _ y hy
      exact absorb_mem_le th rest (init_merged a) y hmem

/-- The two Jaccard comparisons the dedup run on `C7_input` performs: the
seed `{a,b}` against `{a,b,c,d}` scores 1/2 (no merge at threshold 0.6) and
against `{a,b,c}` scores 2/3 (merge). -/
theorem c7_first_compare :
    jaccard_similarity (keyword_set ["a", "b"]) (keyword_set ["a", "b", "c", "d"]) = 1/2 := by
  rw [show keyword_set ["a", "b"] = ({"a", "b"} : Finset String) from by decide,
    show keyword_set ["a", "b", "c", "d"] = ({"a", "b", "c", "d"} : Finset String) from by decide,
    jaccard_similarity, if_neg (by decide), if_neg (by decide),
    show (({"a", "b"} : Finset String) ∩ {"a", "b", "c", "d"}).card = 2 from by decide,
    show (({"a", "b"} : Finset String) ∪ {"a", "b", "c", "d"}).card = 4 from by decide]
  norm_num

/-- The second comparison of the dedup run on `C7_input`. -/
theorem c7_second_compare :
    jaccard_similarity (keyword_set ["a", "b"]) (keyword_set ["a", "b", "c"]) = 2/3 := by
  rw [show keyword_set ["a", "b"] = ({"a", "b"} : Finset String) from by decide,
    show keyword_set ["a", "b", "c"] = ({"a", "b", "c"} : Finset String) from by decide,
    jaccard_similarity, if_neg (by decide), if_neg (by decide),
    show (({"a", "b"} : Finset String) ∩ {"a", "b", "c"}).card = 2 from by decide,
    show (({"a", "b"} : Finset String) ∪ {"a", "b", "c"}).card = 3 from by decide]
  norm_num

/-- The dedup run on the counterexample input: the first seed absorbs the
third candidate but not the second, leaving two canonical entries. -/
theorem c7_dedup_eval :
    deduplicate_trends SIMILARITY_THRESHOLD C7_input = [C7_out0, C7_out1] := by
  have h12 : ¬ (jaccard_similarity (keyword_set ["a", "b"])
      (keyword_set ["a", "b", "c", "d"]) > SIMILARITY_THRESHOLD) := by
    rw [c7_first_compare, SIMILARITY_THRESHOLD]
    norm_num
  have h13 : jaccard_similarity (keyword_set ["a", "b"])
      (keyword_set ["a", "b", "c"]) > SIMILARITY_THRESHOLD := by
    rw [c7_second_compare, SIMILARITY_THRESHOLD]
    norm_num
  simp only [deduplicate_trends, C7_input, List.length_cons, List.length_nil,
    dedup_go, absorb, init_merged, ensure_list, h12, h13, if_true, if_false,
    ite_true, ite_false, gt_iff_lt, lt_self_iff_false]
  decide

/-- C7 counterexample: the claim states that any two entries of the dedup
output have Jaccard similarity at most 0.6 over their stemmed keyword sets.
On the input `[{a,b}, {a,b,c,d}, {a,b,c}]` the first seed absorbs the third
candidate (similarity 2/3 against the seed keywords) but not the second
(1/2), so the two output entries carry keyword sets `{a,b,c}` and
`{a,b,c,d}` — similarity 3/4 > 0.6, because merging compares against the
seed keywords while the output carries the merged union. -/
theorem C7_output_similarity_counterexample :
    deduplicate_trends SIMILARITY_THRESHOLD C7_input = [C7_out0, C7_out1] ∧
    SIMILARITY_THRESHOLD < jaccard_similarity
      (keyword_set_fs C7_out0.keywords) (keyword_set_fs C7_out1.keywords) := by
  refine ⟨c7_dedup_eval, ?_⟩
  rw [show keyword_set_fs C7_out0.keywords = ({"a", "b", "c"} : Finset String) from by decide,
    show keyword_set_fs C7_out1.keywords = ({"a", "b", "c", "d"} : Finset String) from by decide,
    jaccard_similarity, if_neg (by decide), if_neg (by decide),
    show (({"a", "b", "c"} : Finset String) ∩ {"a", "b", "c", "d"}).card = 3 from by decide,
    show (({"a", "b", "c"} : Finset String) ∪ {"a", "b", "c", "d"}).card = 4 from by decide,
    SIMILARITY_THRESHOLD]
  norm_num

/-- C7 amended: what is pairwise separated by the threshold is the seed
candidates of the canonical output entries, not their merged keyword
unions: for any two distinct output entries, the Jaccard similarity of the
stemmed, lowercased keyword sets of their seed candidates is ≤ 0.6 — a later
candidate is merged into the current canonical exactly when its similarity
to the seed keywords is strictly above 0.6, so similarity exactly 0.6 does
not merge — while the merged keyword unions two entries end up carrying may
exceed 0.6. -/
theorem C7_seed_similarity_amended (th : ℚ) (trends : List TrendCand) :
    List.Pairwise (fun x y =>
      jaccard_similarity (keyword_set x.keywords) (keyword_set y.keywords) ≤ th)
      (dedup_seeds th trends) :=
  seeds_go_pairwise th trends.length trends

/-- C9: a run started by this logger instance and then closed by any of the
three terminal transitions under a monotone clock has a terminal status, a
set `ended_at`, and a set non-negative `duration_seconds`; the freshly
started row has status `started` and neither field set. -/
theorem C9_terminal_row_invariant (start_times : List (String × ℚ))
    (run_id workflow : String) (wall0 mono0 wall1 mono1 : ℚ)
    (hmono : mono0 ≤ mono1) :
    ((start_run start_times run_id workflow wall0 mono0).2.status = "started" ∧
     (start_run start_times run_id workflow wall0 mono0).2.ended_at = none ∧
     (start_run start_times run_id workflow wall0 mono0).2.duration_seconds = none) ∧
    (∀ f ∈ [complete_run, fail_run, partial_run],
      (f (start_run start_times run_id workflow wall0 mono0).2
         (start_run start_times run_id workflow wall0 mono0).1
         run_id wall1 mono1).1.status ≠ "started" ∧
      (f (start_run start_times run_id workflow wall0 mono0).2
         (start_run start_times run_id workflow wall0 mono0).1
         run_id wall1 mono1).1.ended_at = some wall1 ∧
      ∃ d, (f (start_run start_times run_id workflow wall0 mono0).2
              (start_run start_times run_id workflow wall0 mono0).1
              run_id wall1 mono1).1.duration_seconds = some d ∧ 0 ≤ d) := by
  have hdur : (calculate_duration
      (start_run start_times run_id workflow wall0 mono0).1 run_id mono1).1 =
      some (py_int_trunc (mono1 - mono0)) := by
    simp [start_run, calculate_duration, List.find?]
  have hpos : 0 ≤ py_int_trunc (mono1 - mono0) := by
    have h0 : (0 : ℚ) ≤ mono1 - mono0 := by linarith
    simp only [py_int_trunc, if_pos h0]
    exact Int.floor_nonneg.mpr h0
  refine ⟨⟨rfl, rfl, rfl⟩, ?_⟩
  intro f hf
  have hstep : ∀ st : String, st ≠ "started" →
      ((terminal_update st (start_run start_times run_id workflow wall0 mono0).2
          (start_run start_times run_id workflow wall0 mono0).1
          run_id wall1 mono1).1.status ≠ "started" ∧
       (terminal_update st (start_run start_times run_id workflow wall0 mono0).2
          (start_run start_times run_id workflow wall0 mono0).1
          run_id wall1 mono1).1.ended_at = some wall1 ∧
       ∃ d, (terminal_update st (start_run start_times run_id workflow wall0 mono0).2
          (start_run start_times run_id workflow wall0 mono0).1
          run_id wall1 mono1).1.duration_seconds = some d ∧ 0 ≤ d) := by
    intro st hst
    refine ⟨by simpa [terminal_update] using hst, by simp [terminal_update], ?_⟩
    exact ⟨py_int_trunc (mono1 - mono0), by simp [terminal_update, hdur], hpos⟩
  simp only [List.mem_cons, List.not_mem_nil, or_false] at hf
  rcases hf with h | h | h
  · exact h ▸ hstep "completed" (by decide)
  · exact h ▸ hstep "failed" (by decide)
  · exact h ▸ hstep "partial" (by decide)

/-- Witness for C9 at concrete inputs: run `r1` of `pricing_engine`, started
at monotonic reading 10 and completed at 12.5 (duration 2 seconds). -/
theorem C9_terminal_row_invariant_witness :
    ((start_run [] "r1" "pricing_engine" 0 10).2.status = "started" ∧
     (start_run [] "r1" "pricing_engine" 0 10).2.ended_at = none ∧
     (start_run [] "r1" "pricing_engine" 0 10).2.duration_seconds = none) ∧
    (∀ f ∈ [complete_run, fail_run, partial_run],
      (f (start_run [] "r1" "pricing_engine" 0 10).2
         (start_run [] "r1" "pricing_engine" 0 10).1
         "r1" 100 12.5).1.status ≠ "started" ∧
      (f (start_run [] "r1" "pricing_engine" 0 10).2
         (start_run [] "r1" "pricing_engine" 0 10).1
         "r1" 100 12.5).1.ended_at = some 100 ∧
      ∃ d, (f (start_run [] "r1" "pricing_engine" 0 10).2
              (start_run [] "r1" "pricing_engine" 0 10).1
              "r1" 100 12.5).1.duration_seconds = some d ∧ 0 ≤ d) :=
  C9_terminal_row_invariant [] "r1" "pricing_engine" 0 10 100 12.5 (by norm_num)

/-- In every reachable breaker state with a positive threshold, reaching the
failure threshold implies the open flag is set (the flag is raised by
`record_failure` exactly when the counter reaches the threshold). -/
theorem cb_reachable_threshold_open {cb : CBState} (h : CBReachable cb)
    (hth : 1 ≤ cb.threshold) (hcf : cb.threshold ≤ cb.consecutive_failures) :
    cb.is_open = true := by
  induction h with
  | init service threshold => simp [init_cb] at hth hcf ⊢; omega
  | fail hr ih =>
    rename_i cb0
    simp only [record_failure] at hth hcf ⊢
    split at hcf
    · rename_i hcond
      simp [record_failure, hcond]
    · rename_i hcond
      simp only [not_and] at hcond
      simp only at hcf hth
      cases hopen : cb0.is_open with
      | true => simp [record_failure, hcond, hopen]
      | false => exact absurd hopen (by simpa using hcond hcf)
  | succ hr ih =>
    simp [record_success] at hth hcf
    omega

/-- C8 counterexample: the claim states that a call through an open circuit
fails with error kind `circuit_open`. The source has no such kind: the
open-circuit path raises `RetryExhaustedError` (the `retry_exhausted` kind)
with `attempts = 0` wrapping a message that names the open circuit. At a
concretely opened `etsy` breaker the wrapped call fails immediately, the
underlying operation is never invoked (0 invocations even though it would
succeed), but the failure kind is `retry_exhausted`, not `circuit_open`. -/
theorem C8_kind_counterexample :
    (retry_call 3 open_cb_example (fun _ => Except.ok (42 : Nat))).1 =
      .error (.retryExhausted 0 "Circuit breaker open for service etsy") ∧
    error_kind (.retryExhausted 0 "Circuit breaker open for service etsy") =
      "retry_exhausted" ∧
    "retry_exhausted" ≠ "circuit_open" ∧
    (retry_call 3 open_cb_example (fun _ => Except.ok (42 : Nat))).2.2 = 0 := by
  refine ⟨?_, rfl, by decide, ?_⟩ <;> rfl

/-- C8 amended: for every reachable breaker state of a service with positive
threshold, once `consecutive_failures ≥ threshold` the circuit is open and
any call through the wrapper fails immediately with
`RetryExhaustedError(attempts = 0)` (kind `retry_exhausted`) whose message
names the open circuit; the breaker state is unchanged and the underlying
operation is invoked zero times. -/
theorem C8_open_circuit_amended {α : Type} (cb : CBState) (fn : Nat → Except String α)
    (max_retries : Nat) (hreach : CBReachable cb) (hth : 1 ≤ cb.threshold)
    (hopen : cb.threshold ≤ cb.consecutive_failures) :
    retry_call max_retries cb fn =
      (.error (.retryExhausted 0 ("Circuit breaker open for service " ++ cb.service)),
       cb, 0) := by
  have h := cb_reachable_threshold_open hreach hth hopen
  simp [retry_call, cb_can_proceed, h]

/-- Witness for C8 amended: the concretely opened `etsy` breaker (threshold
3, three recorded failures) makes the wrapper fail immediately with zero
invocations. -/
theorem C8_open_circuit_amended_witness :
    retry_call 3 open_cb_example (fun _ => Except.ok (7 : Nat)) =
      (.error (.retryExhausted 0
        ("Circuit breaker open for service " ++ open_cb_example.service)),
       open_cb_example, 0) :=
  C8_open_circuit_amended open_cb_example (fun _ => Except.ok (7 : Nat)) 3
    (CBReachable.fail (CBReachable.fail (CBReachable.fail
      (CBReachable.init "etsy" 3))))
    (by decide) (by decide)

/-- C1: the spec requires release to be owner-checked (random token stored on
acquire, delete only when the stored value equals the token): after process A
acquires `lock:pricing_engine`, process B releasing the same workflow must
return false and leave the key intact. The source instead deletes the key
unconditionally and returns true, which also contradicts the unit tests
(`test_release_lock_returns_false_when_not_owned`,
`test_release_lock_deletes_key`, which expect a Lua check-and-delete via
`redis.eval` and a per-instance token map). This theorem evaluates the
embedded code at that failing input: B releases A in spite of not holding
the lock. -/
theorem C1_release_deletes_foreign_lock :
    (acquire_lock (fun _ => none) "pricing_engine").1 = true ∧
    (release_lock (acquire_lock (fun _ => none) "pricing_engine").2 "pricing_engine").1 = true ∧
    (release_lock (acquire_lock (fun _ => none) "pricing_engine").2 "pricing_engine").2
      "lock:pricing_engine" = none := by
  refine ⟨rfl, rfl, ?_⟩
  simp [acquire_lock, release_lock]

/-- Orders filtered by sticker and tier are among the orders filtered by
sticker alone. -/
theorem filter_tier_le_filter_id (sid ct : String) (l : List OrderRow) :
    (l.filter (fun o =>
      decide (o.sticker_id = sid) && decide (o.pricing_tier_at_sale = ct))).length ≤
    (l.filter (fun o => decide (o.sticker_id = sid))).length := by
  induction l with
  | nil => simp
  | cons o rest ih =>
    by_cases h1 : o.sticker_id = sid
    · by_cases h2 : o.pricing_tier_at_sale = ct
      · simpa [List.filter_cons, h1, h2] using ih
      · simp only [List.filter_cons, h1, h2]
        simp only [decide_eq_true_eq]
        simp [h1, h2]
        omega
    · simpa [List.filter_cons, h1] using ih

/-- C3: for a non-archived sticker whose count of orders frozen at its
current tier reaches the override threshold (and whose `sales_count` field
tallies at least its recorded orders), the pricing decision inserts no
price-history row, leaves the price and floor fields untouched, updates the
tier field exactly when the newly computed tier differs from the current
one, and reports no change. -/
theorem C3_sales_override_frame (env : EngineEnv) (s : StickerRow)
    (_harch : s.moderation_status ≠ "archived" ∧ s.current_pricing_tier ≠ "archived")
    (hover : check_sales_override env s.id s.current_pricing_tier = true)
    (hsales : (env.orders.filter (fun o => decide (o.sticker_id = s.id))).length ≤
      s.sales_count) :
    (process_sticker env s).price_history = none ∧
    (process_sticker env s).sticker_update =
      (if computed_tier env s ≠ s.current_pricing_tier then
        some { price := none, current_pricing_tier := some (computed_tier env s),
               floor_price := none }
      else none) ∧
    (process_sticker env s).changed = false := by
  have hcount : SALES_OVERRIDE_THRESHOLD ≤
      (env.orders.filter (fun o =>
        decide (o.sticker_id = s.id) &&
        decide (o.pricing_tier_at_sale = s.current_pricing_tier))).length :=
    of_decide_eq_true hover
  have hsc : s.sales_count ≠ 0 := by
    have h1 := filter_tier_le_filter_id s.id s.current_pricing_tier env.orders
    have : SALES_OVERRIDE_THRESHOLD ≤ s.sales_count :=
      le_trans hcount (le_trans h1 hsales)
    simp only [SALES_OVERRIDE_THRESHOLD] at this
    omega
  have h30 : ¬ (30 ≤ calculate_trend_age env.now
        (some (s.trend_created_at.getD s.created_at)) ∧
      has_recent_sales env s = false ∧ s.sales_count = 0) := by
    rintro ⟨-, -, h0⟩
    exact hsc h0
  simp only [process_sticker, computed_tier]
  rw [if_neg h30, if_pos hover]
  split_ifs <;> exact ⟨rfl, rfl, rfl⟩

/-- Witness for C3 at the spec scenario: a `trending` sticker priced 4.49,
trend age 16 days, ten orders frozen at `trending`; the decision advances
the tier field to `cooling`, leaves price and floor untouched, writes no
price history, and reports no change. -/
theorem C3_sales_override_frame_witness :
    (process_sticker C3_env C3_sticker).price_history = none ∧
    (process_sticker C3_env C3_sticker).sticker_update =
      some { price := none, current_pricing_tier := some "cooling", floor_price := none } ∧
    (process_sticker C3_env C3_sticker).changed = false := by
  have h := C3_sales_override_frame C3_env C3_sticker
    ⟨by decide, by decide⟩ (by decide) (by decide)
  refine ⟨h.1, ?_, h.2.2⟩
  have hct : computed_tier C3_env C3_sticker = "cooling" := by decide
  have h2 := h.2.1
  rw [hct] at h2
  rwa [if_pos (by decide)] at h2

/-- C2 counterexample: the claim states that trend age 3 maps to
`just_dropped` (closed upper bound 0 ≤ d ≤ 3). The source scans the default
table with the half-open test `min ≤ d < max`, so age 3 falls out of the
`just_dropped` row and into `trending`. -/
theorem C2_age3_counterexample :
    get_tier_for_age DEFAULT_TIERS 3 = "trending" ∧
    get_tier_for_age DEFAULT_TIERS 3 ≠ "just_dropped" := by
  constructor <;> decide

/-- C2 amended: over the default tier table every interval is half-open from
below: `just_dropped` for 0 ≤ d < 3, `trending` for 3 ≤ d < 14, `cooling` for
14 ≤ d < 30, `evergreen` for d ≥ 30; at the exact boundaries d = 3 yields
`trending`, d = 4 yields `trending`, d = 14 yields `cooling`, and d = 30
yields `evergreen`. -/
theorem C2_tier_boundaries_amended (d : Nat) :
    get_tier_for_age DEFAULT_TIERS d =
      if d < 3 then "just_dropped"
      else if d < 14 then "trending"
      else if d < 30 then "cooling"
      else "evergreen" := by
  simp only [DEFAULT_TIERS, get_tier_for_age]
  repeat' split
  all_goals first | rfl | omega

/-- C5 counterexample: the claim states that an unreachable store during an
admission check fails closed (`can_proceed` returns false for every
priority). In the source `get_daily_usage` swallows the store error and
returns 0, so the threshold check runs at usage 0 and admits every priority:
the check fails open. -/
theorem C5_fails_open_counterexample :
    can_proceed (.error "connection refused") P0_ORDER_READS = true ∧
    can_proceed (.error "connection refused") P1_NEW_LISTINGS = true ∧
    can_proceed (.error "connection refused") P2_PRICE_UPDATES = true ∧
    can_proceed (.error "connection refused") P3_ANALYTICS = true := by
  decide

/-- C5 amended: whenever the coordination store is unreachable during an
admission check, `get_daily_usage` returns 0, so `can_proceed` evaluates the
threshold check at usage 0 and returns true for every priority level: the
check fails open, not closed. -/
theorem C5_fails_open_amended (e : String) (p : Int) :
    can_proceed (.error e) p = true := by
  simp [can_proceed, get_daily_usage, check_threshold,
    THRESHOLD_NORMAL, THRESHOLD_WARNING, THRESHOLD_CRITICAL]

/-- C10: threshold admission is monotone in both arguments: lowering the
priority preserves admission at fixed usage, and lowering the usage preserves
admission at fixed priority. -/
theorem C10_admission_monotone (u u' p q : Int) :
    (p ≤ q → check_threshold u q = true → check_threshold u p = true) ∧
    (u' ≤ u → check_threshold u p = true → check_threshold u' p = true) := by
  simp only [check_threshold, THRESHOLD_NORMAL, THRESHOLD_WARNING, THRESHOLD_CRITICAL,
    P1_NEW_LISTINGS, P2_PRICE_UPDATES]
  constructor
  · intro hpq
    split_ifs <;> simp_all <;> omega
  · intro huu
    split_ifs <;> simp_all <;> omega

/-- Witness for C10 at concrete inputs: usage 8000 with priorities 1 ≤ 2, and
usages 7000 ≤ 8000 at priority 2. -/
theorem C10_admission_monotone_witness :
    check_threshold 8000 1 = true ∧ check_threshold 7000 2 = true :=
  ⟨(C10_admission_monotone 8000 7000 1 2).1 (by decide) (by decide),
   (C10_admission_monotone 8000 7000 2 2).2 (by decide) (by decide)⟩

end StickerTrendz
